import Mathlib

/-!
Verification of the generation pipeline of `gen.go`.

The file shallowly embeds the Go source `src/gen.go` into Lean:

* pure string manipulation is modelled on `List Char` (a Lean `String` is a
  structure over `List Char`, so every definition below is executable and
  kernel-reducible);
* every call into the operating system, the `text/template` engine or the
  process spawner is mediated by an oracle (`FsEnv`) that decides the outcome
  of the call, and each entry point additionally returns the ordered trace of
  the external operations it attempted;
* the external collaborator packages `app`, `graph` and `ops` (imported by
  `gen.go` but not part of the sources under review) are modelled from the
  specification, at their interface boundary, and are marked as such.

Error values follow the specification's taxonomy (InvalidArgument, NotFound,
IOError, TemplateError); each embedded error site keeps the Go message text of
the corresponding `errors.New` call.
-/

namespace Gen

/-! ### Modelled external collaborators (packages `app`, `graph`, `ops`) -/

namespace app

/-- Modelled from the spec: an Executor is "one task/node's behavioral
description, opaque to this system beyond being passed through into
per-executor template data".  We model the opaque payload as a single
numeric tag. -/
structure Executor where
  payload : Nat
deriving DecidableEq

/-- Modelled from the spec: an Application "has a name and an ordered
sequence of Executors.  Owned by the caller; read-only to this system." -/
structure Application where
  Name : String
  Executors : List Executor
deriving DecidableEq

end app

namespace graph

/-- Modelled from the spec: an edge of the task graph carries a tag, a
sequence number and a color, which `gen.go` reads as `e.Tag`, `e.Num` and
`e.Color`. -/
structure Edge where
  Tag : Int
  Num : Int
  Color : String
deriving DecidableEq

/-- Modelled from the spec: the task Graph is used by `gen.go` only through
its node count `Len()` and the edge lookup `ops.EdgesAt(i, j, g)`, so it is
modelled as a node count together with the list of parallel edges for every
ordered node pair. -/
structure Graph where
  len : Nat
  edges : Nat → Nat → List Edge

end graph

namespace ops

/-- Modelled from the spec: `ops.EdgesAt(i, j, g)` is the edge-lookup query
returning every parallel edge from node `i` to node `j`. -/
def EdgesAt (i j : Nat) (g : graph.Graph) : List graph.Edge :=
  g.edges i j

/-- Modelled from the spec: `ops.Disconnected(i, g)` is the connectivity
query; a node is disconnected when it has zero incident edges (no edge
leaves it and no edge enters it). -/
def Disconnected (i : Nat) (g : graph.Graph) : Bool :=
  (List.range g.len).all fun j => (EdgesAt i j g).isEmpty && (EdgesAt j i g).isEmpty

/-- Modelled from the spec: `ops.NodeCount(chains)` is "the sum of chain
lengths", the number of nodes that belong to a chain. -/
def NodeCount (chains : List Nat) : Nat :=
  chains.sum

/-- Modelled from the spec: chain membership.  Nodes are numbered
consecutively chain by chain (chain 0 owns rows `[0, chains[0])`, chain 1
the next `chains[1]` rows, and so on), so `ChainForRow row chains` is the
index of the chain owning `row`; a row at or beyond every chain (a
synchronization node, which belongs to no declared chain) is mapped to
`chains.length`, one past the last chain index. -/
def ChainForRow (row : Nat) (chains : List Nat) : Nat :=
  match chains with
  | [] => 0
  | c :: rest => if row < c then 0 else ChainForRow (row - c) rest + 1

end ops

/-! ### Template type definitions (from `gen.go`) -/

/-- Embedding of `type ROS_Executor struct` of `gen.go`. -/
structure ROS_Executor where
  Includes : List String
  MsgType : String
  FilterPolicy : String
  PPE : Bool
  PPE_levels : Int
  Executor : app.Executor
  Duration_us : Int
deriving DecidableEq

/-- Embedding of `type Metadata struct` of `gen.go`. -/
structure Metadata where
  Packages : List String
  Includes : List String
  MsgType : String
  PPE : Bool
  PPE_levels : Int
  FilterPolicy : String
  Libraries : List String
  Headers : List String
  Sources : List String
  Duration_us : Int
  Logging_mode : Int
deriving DecidableEq

/-- Embedding of `type Graphdata struct` of `gen.go`.  The Go maps
`map[int]int64` and `map[int]int` are modelled as total functions, matching
Go's map-read semantics (a missing key reads as zero in Go; here the
function itself supplies the value for every key). -/
structure Graphdata where
  Chains : List Nat
  Node_wcet_map : Nat → Int
  Node_prio_map : Nat → Int
  Graph : graph.Graph

/-- Embedding of `type Build struct` of `gen.go`. -/
structure Build where
  Name : String
  Packages : List String
  Sources : List String
  Libraries : List String
  Executors : List ROS_Executor
deriving DecidableEq

/-! ### Graphviz type definitions (from `gen.go`) -/

/-- Embedding of `type Link struct` of `gen.go` (`From`/`To` are loop
indices over graph nodes, hence naturals). -/
structure Link where
  From : Nat
  To : Nat
  Color : String
  Label : String
deriving DecidableEq

/-- Embedding of `type Node struct` of `gen.go`. -/
structure Node where
  Id : Nat
  Label : String
  Style : String
  Fill : String
  Shape : String
deriving DecidableEq

/-- Embedding of `type Graphviz_graph struct` of `gen.go`. -/
structure Graphviz_graph where
  Nodes : List Node
  Links : List Link
deriving DecidableEq

/-- Embedding of `type Graphviz_application struct` of `gen.go` (the Go
field is a non-nil pointer `*app.Application`; the embedding stores the
application value). -/
structure Graphviz_application where
  App : app.Application
  Links : List Link
deriving DecidableEq

/-! ### Errors, effect oracle and effect traces -/

/-- Error taxonomy of the specification, each constructor carrying the Go
message text of the originating `errors.New` site (without the appended
underlying `err.Error()` text, which belongs to the operating system). -/
inductive GenError where
  | invalidArgument (msg : String)
  | notFound (msg : String)
  | ioError (msg : String)
  | templateError (msg : String)
deriving DecidableEq

/-- Wrapping of an error by an orchestrator stage: the Go code wraps with
`errors.New(stageMsg + err.Error())`, which prefixes the stage message onto
the underlying message; the embedding additionally keeps the class. -/
def wrap_error (p : String) (e : GenError) : GenError :=
  match e with
  | .invalidArgument m => .invalidArgument (p ++ m)
  | .notFound m => .notFound (p ++ m)
  | .ioError m => .ioError (p ++ m)
  | .templateError m => .templateError (p ++ m)

/-- Oracle deciding the outcome of every external call: command lookup on
the search path (`exec.LookPath`), file creation (`os.Create`), file reads
(`ioutil.ReadFile`, returning the template text on success), template
parsing and execution (the `text/template` engine, keyed by template text),
directory creation (`os.Mkdir`), existence tests (`os.Stat`), file copying
(`os.Open`/`os.OpenFile`/`io.Copy`, keyed by source and destination), and
the exit status of a spawned command. -/
structure FsEnv where
  lookPathOk : String → Bool
  createOk : String → Bool
  readFile : String → Option String
  parseOk : String → Bool
  execOk : String → Bool
  mkdirOk : String → Bool
  statExists : String → Bool
  copyFileOk : String → String → Bool
  cmdExitOk : String → Bool

/-- Trace entry for one external operation attempted by a renderer: a
command lookup, an output-file creation, a template-file read, or the
spawning of the external command. -/
inductive FsOp where
  | lookPath (cmd : String)
  | create (path : String)
  | read (path : String)
  | spawn (cmd : String) (args : List String)
deriving DecidableEq

/-! ### Template renderer (functions `GenerateWithCommand` and
`GenerateTemplate` of `gen.go`) -/

/-- Embedding of `GenerateWithCommand` of `gen.go`: checks that the command
resolves (`exec.LookPath`), checks the data for nil, reads the template,
parses it, spawns the command with the rendered template piped to its
standard input, and executes the template.  The spawned command's own exit
status (`cmd.Run()` inside the goroutine) is discarded by the source, so the
oracle's `cmdExitOk` field is never consulted.  Returns the result together
with the ordered trace of external operations attempted. -/
def GenerateWithCommand {α : Type} (path command : String) (args : List String)
    (data : Option α) (env : FsEnv) : Except GenError Unit × List FsOp :=
  if env.lookPathOk command = false then
    (.error (.notFound ("Cannot find command \"" ++ command ++ "\": ")), [.lookPath command])
  else
    match data with
    | none => (.error (.invalidArgument "bad input: null pointer"), [.lookPath command])
    | some _ =>
      match env.readFile path with
      | none =>
        (.error (.ioError ("Unable to read template \"" ++ path ++ "\": ")),
          [.lookPath command, .read path])
      | some template_buffer =>
        if env.parseOk template_buffer = false then
          (.error (.templateError "Template parse error: "),
            [.lookPath command, .read path])
        else
          if env.execOk template_buffer = false then
            (.error (.templateError "Exception executing template: "),
              [.lookPath command, .read path, .spawn command args])
          else
            (.ok (), [.lookPath command, .read path, .spawn command args])

/-- Embedding of `GenerateTemplate` of `gen.go`: checks the data for nil,
rejects identical template and output paths, creates the output file, reads
the template file, parses it, and executes it into the buffered writer.
(The Go nil-buffer `panic` after a successful read is unreachable here
because the oracle returns the file's content directly on success.)
Returns the result together with the ordered trace of external operations
attempted. -/
def GenerateTemplate {α : Type} (data : Option α) (in_path out_path : String)
    (env : FsEnv) : Except GenError Unit × List FsOp :=
  match data with
  | none => (.error (.invalidArgument "bad argument: null pointer"), [])
  | some _ =>
    if in_path == out_path then
      (.error (.invalidArgument "input file (template) cannot be same as output file"), [])
    else
      if env.createOk out_path = false then
        (.error (.ioError ("unable to create output file (" ++ out_path ++ "): ")),
          [.create out_path])
      else
        match env.readFile in_path with
        | none =>
          (.error (.ioError ("unable to read input file (" ++ in_path ++ "): ")),
            [.create out_path, .read in_path])
        | some template_file =>
          if env.parseOk template_file = false then
            (.error (.templateError "unable to parse the template: "),
              [.create out_path, .read in_path])
          else
            if env.execOk template_file = false then
              (.error (.templateError "error executing template: "),
                [.create out_path, .read in_path])
            else
              (.ok (), [.create out_path, .read in_path])

/-! ### Graphviz conversions (functions `application_to_graphviz` and
`graph_to_graphviz` of `gen.go`) -/

/-- Label of a link, `fmt.Sprintf("%d.%d", e.Tag, e.Num)` in `gen.go`. -/
def link_label (e : graph.Edge) : String :=
  toString e.Tag ++ "." ++ toString e.Num

/-- Link-creation loop of `application_to_graphviz` of `gen.go`: scans every
ordered node pair of the graph and emits one Link per parallel edge, in scan
order. -/
def application_links (g : graph.Graph) : List Link :=
  (List.range g.len).flatMap fun i =>
    (List.range g.len).flatMap fun j =>
      (ops.EdgesAt i j g).map fun e =>
        { From := i, To := j, Color := e.Color, Label := link_label e }

/-- Embedding of `application_to_graphviz` of `gen.go`: packages the raw
application reference together with the links; the Go error result is
constantly nil, so the embedding returns the structure directly. -/
def application_to_graphviz (a : app.Application) (g : graph.Graph) :
    Graphviz_application :=
  { App := a, Links := application_links g }

/-- Closure `length_one_chain` of `graph_to_graphviz`: whether the chain
owning `row` has length one.  (The Go code indexes `Chains` with the result
of `ops.ChainForRow`; for a row beyond every chain the lookup yields no
chain, modelled by the default 0, which is never equal to 1.) -/
def length_one_chain (chains : List Nat) (row : Nat) : Bool :=
  chains.getD (ops.ChainForRow row chains) 0 == 1

/-- Chain-node label of `graph_to_graphviz`,
`fmt.Sprintf("N%d\n(wcet=%d us)\nprio=%d", i, wcet[i], prio[i])`. -/
def chain_node_label (graph_data : Graphdata) (i : Nat) : String :=
  "N" ++ toString i ++ "\n(wcet=" ++ toString (graph_data.Node_wcet_map i)
    ++ " us)\nprio=" ++ toString (graph_data.Node_prio_map i)

/-- Synchronization-node label of `graph_to_graphviz`,
`fmt.Sprintf("N%d\n(SYNC)", i)`. -/
def sync_node_label (i : Nat) : String :=
  "N" ++ toString i ++ "\n(SYNC)"

/-- Node-creation loop of `graph_to_graphviz` of `gen.go`: includes a node
iff it is not disconnected or its chain has length one; styles it as a chain
node (circle, white fill) when its index is below the chain-node count
`ops.NodeCount` and as a synchronization node (diamond, highlight fill)
otherwise. -/
def graph_nodes (graph_data : Graphdata) : List Node :=
  (List.range graph_data.Graph.len).filterMap fun i =>
    if !(ops.Disconnected i graph_data.Graph) || length_one_chain graph_data.Chains i then
      if i < ops.NodeCount graph_data.Chains then
        some { Id := i, Label := chain_node_label graph_data i, Style := "filled",
               Fill := "#FFFFFF", Shape := "circle" }
      else
        some { Id := i, Label := sync_node_label i, Style := "filled",
               Fill := "#FFE74C", Shape := "diamond" }
    else
      none

/-- Link-creation loop of `graph_to_graphviz` of `gen.go`, textually
duplicated from `application_to_graphviz` in the source: scans every ordered
node pair and emits one Link per parallel edge, in scan order. -/
def graph_links (graph_data : Graphdata) : List Link :=
  (List.range graph_data.Graph.len).flatMap fun i =>
    (List.range graph_data.Graph.len).flatMap fun j =>
      (ops.EdgesAt i j graph_data.Graph).map fun e =>
        { From := i, To := j, Color := e.Color, Label := link_label e }

/-- Embedding of `graph_to_graphviz` of `gen.go`; the Go error result is
constantly nil, so the embedding returns the structure directly. -/
def graph_to_graphviz (graph_data : Graphdata) : Graphviz_graph :=
  { Nodes := graph_nodes graph_data, Links := graph_links graph_data }

/-! ### Private support functions (from `gen.go`) -/

/-- Splitting of a character list at every occurrence of the separator
character; mirrors Go's `strings.Split` for a one-character separator
(splitting the empty string yields one empty field, and separators at the
ends yield empty fields). -/
def split_on_char (c : Char) (l : List Char) : List (List Char) :=
  match l with
  | [] => [[]]
  | x :: xs =>
    match x == c, split_on_char c xs with
    | true, r => [] :: r
    | false, [] => [[x]]
    | false, y :: ys => (x :: y) :: ys

/-- Model of `strings.Split(path, "/")` as used by `filename_from_path`. -/
def strings_split_slash (path : String) : List String :=
  (split_on_char '/' path.data).map String.mk

/-- Embedding of `filename_from_path` of `gen.go`: splits the path on `/`
and returns the last element; errors only when the split produced no
elements at all. -/
def filename_from_path (path : String) : Except GenError String :=
  let path_elements := strings_split_slash path
  if path_elements.length == 0 then
    .error (.invalidArgument "Both separator and path are empty!")
  else
    .ok (path_elements.getLastD "")

/-- Embedding of `filenames_from_paths` of `gen.go`: maps
`filename_from_path` over the list, stopping at the first error. -/
def filenames_from_paths (paths : List String) : Except GenError (List String) :=
  match paths with
  | [] => .ok []
  | path :: rest =>
    match filename_from_path path with
    | .error e => .error e
    | .ok filename =>
      match filenames_from_paths rest with
      | .error e => .error e
      | .ok filenames => .ok (filename :: filenames)

/-- Embedding of `exists_file_or_directory` of `gen.go`, answered by the
oracle's `os.Stat` field. -/
def exists_file_or_directory (path : String) (env : FsEnv) : Bool :=
  env.statExists path

/-- Embedding of `copy_file` of `gen.go`: the chain of `os.Open`,
`os.OpenFile` and `io.Copy` outcomes is decided by the oracle's copy field
for the (source, destination) pair. -/
def copy_file (from_path to_path : String) (env : FsEnv) : Except GenError Unit :=
  if env.copyFileOk from_path to_path = false then
    .error (.ioError ("unable to copy (" ++ from_path ++ ") to (" ++ to_path ++ ")"))
  else
    .ok ()

/-- Loop body of `copy_files_to` of `gen.go`: for each path, check
existence, strip to the bare filename, and copy it into the destination,
stopping at the first failure. -/
def copy_files_loop (paths : List String) (destination : String) (env : FsEnv) :
    Except GenError Unit :=
  match paths with
  | [] => .ok ()
  | path :: rest =>
    if exists_file_or_directory path env = false then
      .error (.notFound ("Unable to locate: " ++ path))
    else
      match filename_from_path path with
      | .error e => .error e
      | .ok filename =>
        match copy_file path (destination ++ "/" ++ filename) env with
        | .error e => .error e
        | .ok _ => copy_files_loop rest destination env

/-- Embedding of `copy_files_to` of `gen.go`: checks the destination
directory exists, then copies each path in order. -/
def copy_files_to (paths : List String) (destination : String) (env : FsEnv) :
    Except GenError Unit :=
  if exists_file_or_directory destination env = false then
    .error (.notFound ("Unable to locate: " ++ destination))
  else
    copy_files_loop paths destination env

/-! ### Scaffolding orchestrator (function `GenerateApplication` of `gen.go`) -/

/-- Data record handed to a renderer invocation by the orchestrator. -/
inductive RenderData where
  | execData (r : ROS_Executor)
  | buildData (b : Build)
  | graphData (g : Graphviz_graph)
  | applicationData (g : Graphviz_application)
deriving DecidableEq

/-- Trace entry for one call the orchestrator makes: a directory creation
(`os.Mkdir`), a file-mode render (`GenerateTemplate` with the given data,
template path and output path), a staging copy (`copy_files_to`), or a
piped-mode render (`GenerateWithCommand` with the given data, template path,
command and arguments). -/
inductive AppOp where
  | mkdirCall (dir : String)
  | renderFile (data : RenderData) (tmpl out : String)
  | copyCall (paths : List String) (dest : String)
  | renderCmd (data : RenderData) (tmpl cmd : String) (args : List String)
deriving DecidableEq

/-- Closure `make_directories` of `GenerateApplication`: attempts to create
each directory in order, stopping at the first failure; returns the result
and the trace of attempts. -/
def make_directories (directories : List String) (env : FsEnv) :
    Except GenError Unit × List AppOp :=
  match directories with
  | [] => (.ok (), [])
  | dir :: rest =>
    if env.mkdirOk dir = false then
      (.error (.ioError ("Cannot make dir (" ++ dir ++ "): ")), [.mkdirCall dir])
    else
      let r := make_directories rest env
      (r.1, .mkdirCall dir :: r.2)

/-- Per-executor record built by the executor loop of `GenerateApplication`,
merging the run-wide metadata with one executor. -/
def ros_executor_of (meta : Metadata) (e : app.Executor) : ROS_Executor :=
  { Includes := meta.Includes
    MsgType := meta.MsgType
    FilterPolicy := meta.FilterPolicy
    PPE := meta.PPE
    PPE_levels := meta.PPE_levels
    Executor := e
    Duration_us := meta.Duration_us }

/-- Executor source filename, `fmt.Sprintf("executor_%d.cpp", i)`. -/
def ros_exec_name (i : Nat) : String :=
  "executor_" ++ toString i ++ ".cpp"

/-- Executor template filename,
`fmt.Sprintf("executor_%d.tmpl", meta.Logging_mode)`. -/
def exec_template_file_name (meta : Metadata) : String :=
  "executor_" ++ toString meta.Logging_mode ++ ".tmpl"

/-- Executor loop of `GenerateApplication`: for the executor at index `i`
(in declared order), builds its record and renders it with the template
selected by the logging mode to `executor_<i>.cpp` under the source
directory, stopping at the first failure.  Returns the result, the ordered
trace of render calls, and the accumulated records for the build
descriptor. -/
def generate_executors (execs : List app.Executor) (i : Nat) (meta : Metadata)
    (templates_dir src_dir : String) (env : FsEnv) :
    Except GenError Unit × List AppOp × List ROS_Executor :=
  match execs with
  | [] => (.ok (), [], [])
  | e :: rest =>
    let ros_exec := ros_executor_of meta e
    let tmpl := templates_dir ++ "/" ++ exec_template_file_name meta
    let out := src_dir ++ "/" ++ ros_exec_name i
    match (GenerateTemplate (some ros_exec) tmpl out env).1 with
    | .error err =>
      (.error (wrap_error "Unable to generate source file: " err),
        [.renderFile (.execData ros_exec) tmpl out], [ros_exec])
    | .ok _ =>
      let r := generate_executors rest (i + 1) meta templates_dir src_dir env
      (r.1, .renderFile (.execData ros_exec) tmpl out :: r.2.1, ros_exec :: r.2.2)

/-- Path normalization at the head of `GenerateApplication`: strips one
trailing `/` when the path is longer than one character. -/
def normalize_root (path : String) : String :=
  if path.data.length > 1 && (path.data.getLast? == some '/') then
    String.mk path.data.dropLast
  else
    path

/-- Embedding of `GenerateApplication` of `gen.go`: validates the
application, normalizes the root path, creates the project directory tree,
renders one source file per executor, assembles the build descriptor from
the staged-file basenames, renders the build manifest and package
descriptor, stages libraries/headers/sources, renders the launch script,
and renders the two diagrams through the external `dot` command.  Any
step's failure aborts the remaining steps.  Returns the result and the
ordered trace of orchestrator calls. -/
def GenerateApplication (a? : Option app.Application) (path0 : String)
    (meta : Metadata) (graph_data : Graphdata) (env : FsEnv) :
    Except GenError Unit × List AppOp :=
  match a? with
  | none => (.error (.invalidArgument "bad argument: null pointer"), [])
  | some a =>
    let path := normalize_root path0
    let root_dir := path ++ "/" ++ a.Name
    let src_dir := root_dir ++ "/src"
    let include_dir_1 := root_dir ++ "/include"
    let include_dir_2 := include_dir_1 ++ "/" ++ a.Name
    let lib_dir := root_dir ++ "/lib"
    let launch_dir := root_dir ++ "/launch"
    let assets_dir := root_dir ++ "/assets"
    let ds := [root_dir, src_dir, include_dir_1, include_dir_2, lib_dir,
      launch_dir, assets_dir]
    let md := make_directories ds env
    match md.1 with
    | .error e => (.error e, md.2)
    | .ok _ =>
      let ge := generate_executors a.Executors 0 meta (path ++ "/templates") src_dir env
      let trace1 := md.2 ++ ge.2.1
      match ge.1 with
      | .error e => (.error e, trace1)
      | .ok _ =>
        match filenames_from_paths meta.Sources with
        | .error e => (.error e, trace1)
        | .ok sources =>
          match filenames_from_paths meta.Libraries with
          | .error e => (.error e, trace1)
          | .ok libraries =>
            let build : Build :=
              { Name := a.Name, Packages := meta.Packages, Sources := sources,
                Libraries := libraries, Executors := ge.2.2 }
            let cmake_tmpl := path ++ "/templates/CMakeLists.tmpl"
            let cmake_out := root_dir ++ "/CMakeLists.txt"
            let trace2 := trace1 ++ [.renderFile (.buildData build) cmake_tmpl cmake_out]
            match (GenerateTemplate (some build) cmake_tmpl cmake_out env).1 with
            | .error e => (.error (wrap_error "Unable to generate CMakeLists: " e), trace2)
            | .ok _ =>
              let pkg_tmpl := path ++ "/templates/package.tmpl"
              let pkg_out := root_dir ++ "/package.xml"
              let trace3 := trace2 ++ [.renderFile (.buildData build) pkg_tmpl pkg_out]
              match (GenerateTemplate (some build) pkg_tmpl pkg_out env).1 with
              | .error e =>
                (.error (wrap_error "Unable to generate package XML file: " e), trace3)
              | .ok _ =>
                let trace4 := trace3 ++ [.copyCall meta.Libraries lib_dir]
                match copy_files_to meta.Libraries lib_dir env with
                | .error e =>
                  (.error (wrap_error "Unable to copy in libraries/header/src-files: " e),
                    trace4)
                | .ok _ =>
                  let trace5 := trace4 ++ [.copyCall meta.Headers include_dir_2]
                  match copy_files_to meta.Headers include_dir_2 env with
                  | .error e =>
                    (.error (wrap_error "Unable to copy headers to include dir: " e), trace5)
                  | .ok _ =>
                    let trace6 := trace5 ++ [.copyCall meta.Sources src_dir]
                    match copy_files_to meta.Sources src_dir env with
                    | .error e =>
                      (.error (wrap_error "Unable to copy source files to src dir: " e),
                        trace6)
                    | .ok _ =>
                      let launch_tmpl := path ++ "/templates/launch.tmpl"
                      let launch_out := launch_dir ++ "/" ++ build.Name ++ "_launch.py"
                      let trace7 := trace6
                        ++ [.renderFile (.buildData build) launch_tmpl launch_out]
                      match (GenerateTemplate (some build) launch_tmpl launch_out env).1 with
                      | .error e =>
                        (.error (wrap_error "Unable to generate launch file: " e), trace7)
                      | .ok _ =>
                        let graphviz_graph := graph_to_graphviz graph_data
                        let graph_tmpl := path ++ "/templates/graph.dt"
                        let graph_args := ["-Tpng", "-o", assets_dir ++ "/graph.png"]
                        let trace8 := trace7
                          ++ [.renderCmd (.graphData graphviz_graph) graph_tmpl "dot" graph_args]
                        match (GenerateWithCommand graph_tmpl "dot" graph_args
                            (some graphviz_graph) env).1 with
                        | .error e =>
                          (.error (wrap_error "Unable to generate graph dot file: " e), trace8)
                        | .ok _ =>
                          let graphviz_application :=
                            application_to_graphviz a graph_data.Graph
                          let app_tmpl := path ++ "/templates/application.dt"
                          let app_args := ["-Tpng", "-o", assets_dir ++ "/application.png"]
                          let trace9 := trace8
                            ++ [.renderCmd (.applicationData graphviz_application)
                                  app_tmpl "dot" app_args]
                          match (GenerateWithCommand app_tmpl "dot" app_args
                              (some graphviz_application) env).1 with
                          | .error e =>
                            (.error (wrap_error "Unable to generate application dot file: " e),
                              trace9)
                          | .ok _ => (.ok (), trace9)

/-! ### Reference definition and lemmas for filename extraction -/

/-- Characters after the last occurrence of `c` in the list (the whole list
when `c` does not occur): the independent, spec-side reading of "the
substring after the last separator". -/
def tail_chunk (c : Char) (l : List Char) : List Char :=
  match l with
  | [] => []
  | x :: xs =>
    match x == c, xs.contains c, tail_chunk c xs with
    | true, _, r => r
    | false, true, r => r
    | false, false, r => x :: r

/-- Substring of a path after its last `/` separator (the whole path when it
contains no separator). -/
def path_basename (p : String) : String :=
  String.mk (tail_chunk '/' p.data)

theorem char_beq_flip {a b : Char} (h : (a == b) = false) : (b == a) = false := by
  cases hba : b == a
  · rfl
  · rw [show b = a from beq_iff_eq.mp hba] at h
    simp at h

theorem split_on_char_ne_nil (c : Char) (l : List Char) : split_on_char c l ≠ [] := by
  cases l with
  | nil => simp [split_on_char]
  | cons x xs =>
    simp only [split_on_char]
    cases x == c <;> cases split_on_char c xs <;> simp

theorem split_on_char_no_sep (c : Char) (l : List Char) (h : l.contains c = false) :
    split_on_char c l = [l] := by
  induction l with
  | nil => rfl
  | cons x xs ih =>
    simp only [List.contains_cons, Bool.or_eq_false_iff] at h
    simp only [split_on_char, char_beq_flip h.1, ih h.2]

theorem tail_chunk_no_sep (c : Char) (l : List Char) (h : l.contains c = false) :
    tail_chunk c l = l := by
  induction l with
  | nil => rfl
  | cons x xs ih =>
    simp only [List.contains_cons, Bool.or_eq_false_iff] at h
    simp only [tail_chunk, char_beq_flip h.1, h.2, ih h.2]

theorem split_on_char_with_sep (c : Char) (l : List Char) (h : l.contains c = true) :
    2 ≤ (split_on_char c l).length := by
  induction l with
  | nil => simp at h
  | cons x xs ih =>
    simp only [List.contains_cons, Bool.or_eq_true] at h
    simp only [split_on_char]
    cases hx : x == c with
    | true =>
      have := List.length_pos.mpr (split_on_char_ne_nil c xs)
      simp only [List.length_cons]
      omega
    | false =>
      have hxs : xs.contains c = true := by
        cases h with
        | inl hcx =>
          rw [show c = x from beq_iff_eq.mp hcx] at hx
          simp at hx
        | inr hco => exact hco
      have h2 := ih hxs
      cases hr : split_on_char c xs with
      | nil => exact absurd hr (split_on_char_ne_nil c xs)
      | cons y ys =>
        rw [hr] at h2
        simpa using h2

theorem getLastD_irrel {α : Type} (d d' : α) (l : List α) (h : l ≠ []) :
    l.getLastD d = l.getLastD d' := by
  cases l with
  | nil => exact absurd rfl h
  | cons b m => rfl

/-- Last field of the split equals the characters after the last
separator. -/
theorem split_on_char_getLastD (c : Char) (l : List Char) :
    (split_on_char c l).getLastD [] = tail_chunk c l := by
  induction l with
  | nil => rfl
  | cons x xs ih =>
    simp only [split_on_char, tail_chunk]
    cases hx : x == c with
    | true =>
      show ([] :: split_on_char c xs).getLastD [] = tail_chunk c xs
      rw [List.getLastD_cons]
      exact ih
    | false =>
      cases hco : xs.contains c with
      | true =>
        have h2 := split_on_char_with_sep c xs hco
        cases hr : split_on_char c xs with
        | nil => exact absurd hr (split_on_char_ne_nil c xs)
        | cons y ys =>
          rw [hr] at h2 ih
          have hys : ys ≠ [] := by
            cases ys with
            | nil => simp at h2
            | cons _ _ => simp
          show ((x :: y) :: ys).getLastD [] = tail_chunk c xs
          rw [show ((x :: y) :: ys).getLastD [] = ys.getLastD (x :: y) from
            List.getLastD_cons _ _ _]
          rw [show (y :: ys).getLastD [] = ys.getLastD y from List.getLastD_cons _ _ _] at ih
          rw [getLastD_irrel (x :: y) y ys hys]
          exact ih
      | false =>
        rw [split_on_char_no_sep c xs hco]
        show ((x :: xs) :: []).getLastD [] = x :: tail_chunk c xs
        rw [tail_chunk_no_sep c xs hco]
        rfl

theorem map_mk_getLastD : ∀ (l : List (List Char)), l ≠ [] →
    (l.map String.mk).getLastD "" = String.mk (l.getLastD [])
  | [], h => absurd rfl h
  | [_], _ => rfl
  | y :: z :: zs, _ => by
    rw [List.map_cons,
      show (String.mk y :: (z :: zs).map String.mk).getLastD ""
        = ((z :: zs).map String.mk).getLastD (String.mk y) from List.getLastD_cons _ _ _,
      getLastD_irrel (String.mk y) "" _ (by simp),
      map_mk_getLastD (z :: zs) (by simp),
      show (y :: z :: zs).getLastD [] = (z :: zs).getLastD y from List.getLastD_cons _ _ _,
      getLastD_irrel y [] _ (by simp)]

/-- Function `filename_from_path` never fails: its split always yields at
least one field, and the last field is the substring after the last `/`. -/
theorem filename_from_path_eq (p : String) :
    filename_from_path p = .ok (path_basename p) := by
  unfold filename_from_path strings_split_slash path_basename
  have hne : split_on_char '/' p.data ≠ [] := split_on_char_ne_nil '/' p.data
  have hlen : ((split_on_char '/' p.data).map String.mk).length ≠ 0 := by
    simpa [List.length_eq_zero] using hne
  rw [if_neg (by simpa using hlen)]
  congr 1
  rw [map_mk_getLastD _ hne, split_on_char_getLastD]

/-! ### Concrete oracles and inputs for witnesses -/

/-- Oracle granting every external call success; file reads return the
fixed template text `"T"`. -/
def env_allow : FsEnv :=
  { lookPathOk := fun _ => true
    createOk := fun _ => true
    readFile := fun _ => some "T"
    parseOk := fun _ => true
    execOk := fun _ => true
    mkdirOk := fun _ => true
    statExists := fun _ => true
    copyFileOk := fun _ _ => true
    cmdExitOk := fun _ => true }

/-- Oracle denying every external call. -/
def env_deny : FsEnv :=
  { lookPathOk := fun _ => false
    createOk := fun _ => false
    readFile := fun _ => none
    parseOk := fun _ => false
    execOk := fun _ => false
    mkdirOk := fun _ => false
    statExists := fun _ => false
    copyFileOk := fun _ _ => false
    cmdExitOk := fun _ => false }

/-- Oracle granting every external call success except that every spawned
command exits with a failure status. -/
def env_cmd_fails : FsEnv :=
  { env_allow with cmdExitOk := fun _ => false }

/-! ### Claim C5 -/

/-- C5: for every data value and every path `p`, calling the file-mode
renderer (`GenerateTemplate`) with template path equal to output path (both
`p`) and non-absent data returns an InvalidArgument-class error, and its
trace of filesystem operations is empty — no file is created, read, or
written. -/
theorem C5_same_path_rejected_before_fs {α : Type} (d : α) (p : String) (env : FsEnv) :
    GenerateTemplate (some d) p p env
      = (.error (.invalidArgument "input file (template) cannot be same as output file"),
          []) := by
  simp [GenerateTemplate]

/-! ### Claim C6 -/

/-- C6: for every template path, argument list and data value, the
piped-mode renderer (`GenerateWithCommand`) (a) returns a NotFound-class
error when the command does not resolve on the search path, with a trace
holding only the lookup — so before the data-presence check and before any
read of the template file; and (b) when the command resolves but the data is
absent, returns an InvalidArgument-class error, again with no template read
in the trace. -/
theorem C6_lookup_and_data_checked_before_read {α : Type} (path command : String)
    (args : List String) (data : Option α) (env : FsEnv) :
    (env.lookPathOk command = false →
      GenerateWithCommand path command args data env
        = (.error (.notFound ("Cannot find command \"" ++ command ++ "\": ")),
            [.lookPath command]))
    ∧ (env.lookPathOk command = true →
      GenerateWithCommand path command args (none : Option α) env
        = (.error (.invalidArgument "bad input: null pointer"), [.lookPath command])) := by
  constructor
  · intro h
    simp [GenerateWithCommand, h]
  · intro h
    simp [GenerateWithCommand, h]

/-- Witness for C6 at concrete inputs: an unresolvable `dot` fails NotFound
with only the lookup in the trace, and a resolvable `dot` with absent data
fails InvalidArgument without reading the template. -/
theorem C6_witness :
    GenerateWithCommand "g.dt" "dot" ["-Tpng"] (some (0 : Nat)) env_deny
      = (.error (.notFound "Cannot find command \"dot\": "), [.lookPath "dot"])
    ∧ GenerateWithCommand "g.dt" "dot" ["-Tpng"] (none : Option Nat) env_allow
      = (.error (.invalidArgument "bad input: null pointer"), [.lookPath "dot"]) :=
  ⟨(C6_lookup_and_data_checked_before_read "g.dt" "dot" ["-Tpng"]
      (some (0 : Nat)) env_deny).1 rfl,
   (C6_lookup_and_data_checked_before_read "g.dt" "dot" ["-Tpng"]
      (none : Option Nat) env_allow).2 rfl⟩

/-! ### Claim C10 -/

/-- C10: the result of the piped-mode renderer does not depend on the
spawned subprocess's exit status: whenever command resolution, data
validation, template read, template parse and template execution all
succeed, it returns success, even when the oracle reports the command
exiting with a failure status (the source discards the `cmd.Run()` error
inside the goroutine). -/
theorem C10_subprocess_exit_ignored {α : Type} (path command : String)
    (args : List String) (d : α) (env : FsEnv) (content : String)
    (h1 : env.lookPathOk command = true)
    (h2 : env.readFile path = some content)
    (h3 : env.parseOk content = true)
    (h4 : env.execOk content = true)
    (_h5 : env.cmdExitOk command = false) :
    (GenerateWithCommand path command args (some d) env).1 = .ok () := by
  simp [GenerateWithCommand, h1, h2, h3, h4]

/-- Witness for C10 at concrete inputs: with every step succeeding but the
spawned command failing, the piped-mode renderer still returns success. -/
theorem C10_witness :
    (GenerateWithCommand "g.dt" "dot" ["-Tpng"] (some (0 : Nat)) env_cmd_fails).1
      = .ok () :=
  C10_subprocess_exit_ignored "g.dt" "dot" ["-Tpng"] 0 env_cmd_fails "T"
    rfl rfl rfl rfl rfl

/-! ### Claim C7 -/

/-- C7 counterexample: the claim says filename extraction returns an
InvalidArgument-class error on the empty path, but `strings.Split("", "/")`
yields one empty field, so `filename_from_path ""` succeeds and returns the
empty string; the guard `len(path_elements) == 0` is unreachable with the
separator `"/"`. -/
theorem C7_counterexample : filename_from_path "" = .ok "" := rfl

theorem filenames_from_paths_eq (paths : List String) :
    filenames_from_paths paths = .ok (paths.map path_basename) := by
  induction paths with
  | nil => rfl
  | cons p rest ih =>
    simp [filenames_from_paths, filename_from_path_eq p, ih]

/-- C7 as amended: `filename_from_path` never returns an error — splitting
on `/` always yields at least one field — and for every path (including the
empty path, whose result is the empty string) it returns the substring after
the last separator; consequently `filenames_from_paths` never fails. -/
theorem C7_amended_never_fails (path : String) (paths : List String) :
    filename_from_path path = .ok (path_basename path)
    ∧ filenames_from_paths paths = .ok (paths.map path_basename) :=
  ⟨filename_from_path_eq path, filenames_from_paths_eq paths⟩

/-! ### Claim C8 -/

/-- C8: for every non-empty list of non-empty path strings,
`filenames_from_paths` succeeds and returns a list with the same number of
elements as its input, whose element at each index is the substring of the
corresponding input path after its last `/` separator (`path_basename`). -/
theorem C8_filenames_from_paths_pointwise (paths : List String)
    (_h1 : paths ≠ []) (_h2 : ∀ p ∈ paths, p ≠ "") :
    filenames_from_paths paths = .ok (paths.map path_basename)
    ∧ (paths.map path_basename).length = paths.length :=
  ⟨filenames_from_paths_eq paths, List.length_map paths path_basename⟩

/-- Witness for C8 at concrete inputs: a two-element path list maps to its
two basenames. -/
theorem C8_witness :
    filenames_from_paths ["deps/a/lib.so", "main.cpp"] = .ok ["lib.so", "main.cpp"]
    ∧ (["deps/a/lib.so", "main.cpp"].map path_basename).length
        = (["deps/a/lib.so", "main.cpp"] : List String).length :=
  C8_filenames_from_paths_pointwise ["deps/a/lib.so", "main.cpp"]
    (by decide) (by decide)

/-! ### Claim C4 -/

/-- C4: for every application and graph metadata bundle, the Link list
produced by the application-to-diagram conversion equals the Link list
produced by the graph-to-diagram conversion on the same graph (same
ordered-pair scan, same multi-edge handling, same tag-dot-num label and edge
color), and the application-to-diagram conversion performs no node filtering
or styling: its result carries the raw application reference and the links,
and nothing else. -/
theorem C4_application_links_equal_graph_links (a : app.Application)
    (graph_data : Graphdata) :
    application_to_graphviz a graph_data.Graph
      = { App := a, Links := (graph_to_graphviz graph_data).Links } := rfl

/-! ### Claim C1 -/

/-- Concrete graph bundle for C1: one chain of one node, a second
(synchronization) node, and a single edge from node 0 to node 1, so both
nodes are connected and included. -/
def gd_c1 : Graphdata :=
  { Chains := [1]
    Node_wcet_map := fun _ => 7
    Node_prio_map := fun _ => 3
    Graph :=
      { len := 2
        edges := fun i j =>
          if i == 0 && j == 1 then [{ Tag := 4, Num := 5, Color := "red" }] else [] } }

/-- C1 counterexample: the claim requires the label of an included
synchronization node to be exactly the string `N<i> (SYNC)` (a space between
the two parts); the code builds the label with
`fmt.Sprintf("N%d\n(SYNC)", i)`, a newline between the two parts, so the
included synchronization node 1 of `gd_c1` carries the label with a newline,
which differs from the claimed string. -/
theorem C1_counterexample :
    ((graph_to_graphviz gd_c1).Nodes.filter fun nd => nd.Id == 1)
      = [{ Id := 1, Label := "N1\n(SYNC)", Style := "filled", Fill := "#FFE74C",
           Shape := "diamond" }]
    ∧ "N1\n(SYNC)" ≠ "N1 (SYNC)" := by
  exact ⟨by decide, by decide⟩

/-- C1 as amended: for every GraphData, each included node is classified by
the chain-node count threshold — a node with index below
`ops.NodeCount graph_data.Chains` is a chain node (shape circle, white fill
`#FFFFFF`, label `N<i>\n(wcet=<w> us)\nprio=<p>` embedding the node's
worst-case-execution-time and priority from the two maps) and an included
node at or above that count is a synchronization node (shape diamond,
highlight fill `#FFE74C`, label exactly `N<i>\n(SYNC)` — newline separator,
not space — with no numeric fields beyond the node index). -/
theorem C1_amended_classification (graph_data : Graphdata) (nd : Node)
    (h : nd ∈ (graph_to_graphviz graph_data).Nodes) :
    (nd.Id < ops.NodeCount graph_data.Chains →
      nd = { Id := nd.Id, Label := chain_node_label graph_data nd.Id, Style := "filled",
             Fill := "#FFFFFF", Shape := "circle" })
    ∧ (ops.NodeCount graph_data.Chains ≤ nd.Id →
      nd = { Id := nd.Id, Label := sync_node_label nd.Id, Style := "filled",
             Fill := "#FFE74C", Shape := "diamond" }) := by
  have h' : nd ∈ graph_nodes graph_data := h
  unfold graph_nodes at h'
  rw [List.mem_filterMap] at h'
  obtain ⟨a, _, hfa⟩ := h'
  by_cases hc : (!(ops.Disconnected a graph_data.Graph)
      || length_one_chain graph_data.Chains a) = true
  · rw [if_pos hc] at hfa
    by_cases hlt : a < ops.NodeCount graph_data.Chains
    · rw [if_pos hlt] at hfa
      injection hfa with hnd
      subst hnd
      exact ⟨fun _ => rfl, fun hge => absurd hlt (Nat.not_lt.mpr hge)⟩
    · rw [if_neg hlt] at hfa
      injection hfa with hnd
      subst hnd
      exact ⟨fun hlt' => absurd hlt' hlt, fun _ => rfl⟩
  · rw [if_neg hc] at hfa
    exact absurd hfa (by simp)

/-- Concrete node for the C1 witness: the chain node 0 emitted for
`gd_c1`. -/
def c1_node : Node :=
  { Id := 0, Label := "N0\n(wcet=7 us)\nprio=3", Style := "filled",
    Fill := "#FFFFFF", Shape := "circle" }

/-- Witness for C1 at a concrete input: the included chain node 0 of
`gd_c1` carries the circle/white styling with the wcet/priority label. -/
theorem C1_witness :
    (c1_node ∈ (graph_to_graphviz gd_c1).Nodes)
    ∧ ((c1_node.Id < ops.NodeCount gd_c1.Chains →
        c1_node = { Id := c1_node.Id, Label := chain_node_label gd_c1 c1_node.Id,
                    Style := "filled", Fill := "#FFFFFF", Shape := "circle" })
      ∧ (ops.NodeCount gd_c1.Chains ≤ c1_node.Id →
        c1_node = { Id := c1_node.Id, Label := sync_node_label c1_node.Id,
                    Style := "filled", Fill := "#FFE74C", Shape := "diamond" })) :=
  ⟨by decide, C1_amended_classification gd_c1 c1_node (by decide)⟩

/-! ### Claim C2 -/

/-- C2: for every GraphData and every node index `i` below the graph's
length, the diagram's node set contains a node with id `i` exactly when `i`
is connected to at least one other node (not `ops.Disconnected`) or the
chain owning `i` has length exactly one; in particular a node with zero
incident edges that is not in a length-1 chain is excluded. -/
theorem C2_node_inclusion (graph_data : Graphdata) (i : Nat)
    (h : i < graph_data.Graph.len) :
    ((graph_to_graphviz graph_data).Nodes.any fun nd => nd.Id == i)
      = (!(ops.Disconnected i graph_data.Graph)
          || length_one_chain graph_data.Chains i) := by
  show (graph_nodes graph_data).any _ = _
  unfold graph_nodes
  cases hc : (!(ops.Disconnected i graph_data.Graph)
      || length_one_chain graph_data.Chains i) with
  | true =>
    rw [List.any_eq_true]
    by_cases hlt : i < ops.NodeCount graph_data.Chains
    · exact ⟨_, List.mem_filterMap.mpr ⟨i, List.mem_range.mpr h,
        by rw [if_pos hc, if_pos hlt]⟩, by simp⟩
    · exact ⟨_, List.mem_filterMap.mpr ⟨i, List.mem_range.mpr h,
        by rw [if_pos hc, if_neg hlt]⟩, by simp⟩
  | false =>
    rw [List.any_eq_false]
    intro nd hnd
    rw [List.mem_filterMap] at hnd
    obtain ⟨a, _, hfa⟩ := hnd
    by_cases hca : (!(ops.Disconnected a graph_data.Graph)
        || length_one_chain graph_data.Chains a) = true
    · have hai : a ≠ i := by
        intro he
        rw [he] at hca
        rw [hca] at hc
        exact Bool.true_eq_false.mp hc
      rw [if_pos hca] at hfa
      by_cases hlt : a < ops.NodeCount graph_data.Chains
      · rw [if_pos hlt] at hfa
        injection hfa with hnd
        subst hnd
        simpa using hai
      · rw [if_neg hlt] at hfa
        injection hfa with hnd
        subst hnd
        simpa using hai
    · rw [if_neg hca] at hfa
      exact absurd hfa (by simp)

/-- Concrete graph bundle for C2: chains `[1, 2]` (three chain nodes), a
fourth synchronization node, and a single edge from node 1 to node 2; node 0
is disconnected but sits in a length-1 chain, node 3 is disconnected and in
no chain. -/
def gd_c2 : Graphdata :=
  { Chains := [1, 2]
    Node_wcet_map := fun _ => 10
    Node_prio_map := fun _ => 1
    Graph :=
      { len := 4
        edges := fun i j =>
          if i == 1 && j == 2 then [{ Tag := 0, Num := 1, Color := "black" }] else [] } }

/-- Witness for C2 at concrete inputs: the disconnected node 3 of `gd_c2`
(no incident edges, not in a length-1 chain) is excluded from the node set,
while the disconnected singleton-chain node 0 is included. -/
theorem C2_witness :
    (((graph_to_graphviz gd_c2).Nodes.any fun nd => nd.Id == 3)
      = (!(ops.Disconnected 3 gd_c2.Graph) || length_one_chain gd_c2.Chains 3))
    ∧ ((graph_to_graphviz gd_c2).Nodes.any fun nd => nd.Id == 3) = false
    ∧ ((graph_to_graphviz gd_c2).Nodes.any fun nd => nd.Id == 0) = true :=
  ⟨C2_node_inclusion gd_c2 3 (by decide), by decide, by decide⟩

/-! ### Claim C3 -/

theorem flatMap_eq_nil_of_forall {α β : Type} (l : List α) (f : α → List β)
    (h : ∀ a ∈ l, f a = []) : l.flatMap f = [] :=
  List.flatMap_eq_nil_iff.mpr h

theorem range_flatMap_single {β : Type} (n k : Nat) (g : Nat → List β) (hk : k < n)
    (h : ∀ a, a ≠ k → g a = []) : (List.range n).flatMap g = g k := by
  induction n with
  | zero => exact absurd hk (Nat.not_lt_zero k)
  | succ n ih =>
    rw [List.range_succ, List.flatMap_append]
    by_cases hkn : k = n
    · subst hkn
      rw [flatMap_eq_nil_of_forall (List.range k) g
        (fun a ha => h a (Nat.ne_of_lt (List.mem_range.mp ha)))]
      simp
    · have hk' : k < n := by omega
      rw [ih hk']
      simp [h n (fun e => hkn e.symm)]

/-- Filtered pair contribution: filtering the links emitted for the ordered
pair `(a, b)` by the pair `(i, j)` keeps everything when the pairs agree and
nothing otherwise. -/
theorem pair_links_filter (g : graph.Graph) (a b i j : Nat) :
    (((ops.EdgesAt a b g).map fun e =>
        { From := a, To := b, Color := e.Color, Label := link_label e : Link }).filter
          fun l => l.From == i && l.To == j)
      = if a = i ∧ b = j then
          (ops.EdgesAt a b g).map fun e =>
            { From := a, To := b, Color := e.Color, Label := link_label e : Link }
        else [] := by
  by_cases hab : a = i ∧ b = j
  · rw [if_pos hab]
    apply List.filter_eq_self.mpr
    intro x hx
    rw [List.mem_map] at hx
    obtain ⟨e, _, he⟩ := hx
    rw [← he]
    simp [hab.1, hab.2]
  · rw [if_neg hab]
    rw [List.filter_eq_nil_iff]
    intro x hx
    rw [List.mem_map] at hx
    obtain ⟨e, _, he⟩ := hx
    rw [← he]
    rw [Decidable.not_and_iff_or_not] at hab
    cases hab with
    | inl hai => simp [beq_eq_false_iff_ne.mpr hai]
    | inr hbj => simp [beq_eq_false_iff_ne.mpr hbj]

/-- C3: for every GraphData and every ordered node pair `(i, j)` within the
graph, the links of the produced diagram restricted to that pair are exactly
one link per parallel edge from `i` to `j`, each carrying that edge's color
and the `"<tag>.<num>"` label; in particular a pair with zero edges
contributes no links, and a pair with `k` parallel edges contributes exactly
`k` links. -/
theorem C3_links_per_pair (graph_data : Graphdata) (i j : Nat)
    (hi : i < graph_data.Graph.len) (hj : j < graph_data.Graph.len) :
    ((graph_to_graphviz graph_data).Links.filter fun l => l.From == i && l.To == j)
      = (ops.EdgesAt i j graph_data.Graph).map fun e =>
          { From := i, To := j, Color := e.Color, Label := link_label e } := by
  show (graph_links graph_data).filter _ = _
  unfold graph_links
  rw [List.filter_flatMap]
  simp only [List.filter_flatMap, pair_links_filter]
  rw [range_flatMap_single graph_data.Graph.len i
      (fun a => (List.range graph_data.Graph.len).flatMap fun b =>
        if a = i ∧ b = j then
          (ops.EdgesAt a b graph_data.Graph).map fun e =>
            ({ From := a, To := b, Color := e.Color, Label := link_label e } : Link)
        else []) hi
      (fun a ha => flatMap_eq_nil_of_forall _ _ fun b _ =>
        if_neg fun hcon => ha hcon.1)]
  rw [range_flatMap_single graph_data.Graph.len j
      (fun b =>
        if i = i ∧ b = j then
          (ops.EdgesAt i b graph_data.Graph).map fun e =>
            ({ From := i, To := b, Color := e.Color, Label := link_label e } : Link)
        else []) hj
      (fun b hb => if_neg fun hcon => hb hcon.2)]
  rw [if_pos ⟨rfl, rfl⟩]

/-- Witness for C3 at a concrete input: in `gd_c1` the pair `(0, 1)` carries
exactly its one red edge as a link labelled `4.5`, and all other pairs
contribute no link. -/
theorem C3_witness :
    ((graph_to_graphviz gd_c1).Links.filter fun l => l.From == 0 && l.To == 1)
      = [{ From := 0, To := 1, Color := "red", Label := "4.5" }] :=
  ((C3_links_per_pair gd_c1 0 1 (by decide) (by decide)).trans (by decide))

/-! ### Claim C9 -/

/-- Whether an orchestrator call is a render of a per-executor record to a
source file (the only calls carrying `RenderData.execData`). -/
def is_exec_render (op : AppOp) : Bool :=
  match op with
  | .renderFile (.execData _) _ _ => true
  | _ => false

theorem make_directories_no_exec_render (env : FsEnv) :
    ∀ ds : List String, (make_directories ds env).2.filter is_exec_render = [] := by
  intro ds
  induction ds with
  | nil => rfl
  | cons d rest ih =>
    unfold make_directories
    cases hmk : env.mkdirOk d with
    | false => simp [hmk, is_exec_render]
    | true => simp [hmk, is_exec_render, ih]

/-- Successful executor loop: the trace lists, in declared order, one render
per executor, the executor at offset index `p.1` going to
`executor_<p.1>.cpp` under the source directory with the template selected
by the logging mode. -/
theorem generate_executors_ok_trace (meta : Metadata) (templates_dir src_dir : String)
    (env : FsEnv) :
    ∀ (execs : List app.Executor) (i : Nat),
      (generate_executors execs i meta templates_dir src_dir env).1 = .ok () →
      (generate_executors execs i meta templates_dir src_dir env).2.1
        = (execs.enumFrom i).map fun p =>
            AppOp.renderFile (.execData (ros_executor_of meta p.2))
              (templates_dir ++ "/" ++ exec_template_file_name meta)
              (src_dir ++ "/" ++ ros_exec_name p.1) := by
  intro execs
  induction execs with
  | nil => intro i _; rfl
  | cons e rest ih =>
    intro i hok
    unfold generate_executors at hok ⊢
    simp only [] at hok ⊢
    cases hgt : (GenerateTemplate (some (ros_executor_of meta e))
        (templates_dir ++ "/" ++ exec_template_file_name meta)
        (src_dir ++ "/" ++ ros_exec_name i) env).1 with
    | error err =>
      rw [hgt] at hok
      simp at hok
    | ok v =>
      rw [hgt] at hok
      rw [show (e :: rest).enumFrom i = (i, e) :: rest.enumFrom (i + 1) from rfl,
        List.map_cons]
      show AppOp.renderFile (.execData (ros_executor_of meta e)) _ _
          :: (generate_executors rest (i + 1) meta templates_dir src_dir env).2.1 = _
      congr 1
      exact ih (i + 1) hok

theorem exec_render_trace_filter (l : List (Nat × app.Executor)) (meta : Metadata)
    (templates_dir src_dir : String) :
    ((l.map fun p =>
        AppOp.renderFile (.execData (ros_executor_of meta p.2))
          (templates_dir ++ "/" ++ exec_template_file_name meta)
          (src_dir ++ "/" ++ ros_exec_name p.1)).filter is_exec_render)
      = l.map fun p =>
          AppOp.renderFile (.execData (ros_executor_of meta p.2))
            (templates_dir ++ "/" ++ exec_template_file_name meta)
            (src_dir ++ "/" ++ ros_exec_name p.1) := by
  apply List.filter_eq_self.mpr
  intro x hx
  rw [List.mem_map] at hx
  obtain ⟨p, _, hp⟩ := hx
  rw [← hp]
  rfl

/-- C9: for every Application and Metadata, on a successful run the
orchestrator's per-executor render calls are, in declared order, exactly one
render per executor: the executor at index `i` of the Application's executor
sequence is rendered to output file `executor_<i>.cpp` in the `src`
directory using template `executor_<loggingMode>.tmpl`; the output filename
depends only on `i` and the template name only on the logging mode, so the
logging mode selects the template variant and never changes the output
filename. -/
theorem C9_executor_render_schedule (a : app.Application) (path0 : String)
    (meta : Metadata) (graph_data : Graphdata) (env : FsEnv)
    (h : (GenerateApplication (some a) path0 meta graph_data env).1 = .ok ()) :
    (GenerateApplication (some a) path0 meta graph_data env).2.filter is_exec_render
      = a.Executors.enum.map fun p =>
          AppOp.renderFile (.execData (ros_executor_of meta p.2))
            (normalize_root path0 ++ "/templates" ++ "/" ++ exec_template_file_name meta)
            (normalize_root path0 ++ "/" ++ a.Name ++ "/src" ++ "/"
              ++ ros_exec_name p.1) := by
  unfold GenerateApplication at h ⊢
  simp only [] at h ⊢
  split at h
  · simp at h
  · rename_i v1 heq1
    split at h
    · simp at h
    · rename_i v2 heq2
      split at h
      · simp at h
      · rename_i sources heq3
        split at h
        · simp at h
        · rename_i libraries heq4
          split at h
          · simp at h
          · rename_i v5 heq5
            split at h
            · simp at h
            · rename_i v6 heq6
              split at h
              · simp at h
              · rename_i v7 heq7
                split at h
                · simp at h
                · rename_i v8 heq8
                  split at h
                  · simp at h
                  · rename_i v9 heq9
                    split at h
                    · simp at h
                    · rename_i v10 heq10
                      split at h
                      · simp at h
                      · rename_i v11 heq11
                        split at h
                        · simp at h
                        · rename_i v12 heq12
                          cases v2
                          rw [generate_executors_ok_trace meta
                            (normalize_root path0 ++ "/templates")
                            (normalize_root path0 ++ "/" ++ a.Name ++ "/src") env
                            a.Executors 0 heq2]
                          simp only [List.filter_append, exec_render_trace_filter,
                            make_directories_no_exec_render env]
                          simp [is_exec_render]
                          rfl

/-- Concrete application for the C9 witness: two executors, declared
order. -/
def c9_app : app.Application :=
  { Name := "demo", Executors := [{ payload := 0 }, { payload := 1 }] }

/-- Concrete metadata for the C9 witness: logging mode 0, no staged
files. -/
def c9_meta : Metadata :=
  { Packages := [], Includes := [], MsgType := "msg", PPE := false, PPE_levels := 0,
    FilterPolicy := "fp", Libraries := [], Headers := [], Sources := [],
    Duration_us := 1000, Logging_mode := 0 }

/-- Witness for C9 at concrete inputs: a successful run over two executors
renders `executor_0.cpp` then `executor_1.cpp` under `src`, both from
template `executor_0.tmpl` (logging mode 0), in declared order. -/
theorem C9_witness :
    (GenerateApplication (some c9_app) "/tmp" c9_meta gd_c1 env_allow).1 = .ok ()
    ∧ (GenerateApplication (some c9_app) "/tmp" c9_meta gd_c1 env_allow).2.filter
        is_exec_render
      = [AppOp.renderFile (.execData (ros_executor_of c9_meta { payload := 0 }))
           "/tmp/templates/executor_0.tmpl" "/tmp/demo/src/executor_0.cpp",
         AppOp.renderFile (.execData (ros_executor_of c9_meta { payload := 1 }))
           "/tmp/templates/executor_0.tmpl" "/tmp/demo/src/executor_1.cpp"] :=
  ⟨rfl,
   (C9_executor_render_schedule c9_app "/tmp" c9_meta gd_c1 env_allow rfl).trans
     (by decide)⟩

end Gen
